import Mathlib

/-!
Shallow embedding of the competitor discovery and threat-scoring pipeline of
the `beam-individuals` backend, together with theorems settling the frozen
claims about it.

Source files embedded:
- `src/server/services/threatScoringService.js` (`calculateThreatScore`)
- `src/server/services/competitorDiscoveryService.js`
  (`extractBusinessContext`, `researchAgent`, `supervisorAgent`,
   `calculateCompetitorThreat`, `discoverCompetitors`)
- `src/server/services/automationService.js` (`performWeeklyRefresh`)
- `src/server/migrations/run-migrations.js` (table schemas; in particular the
  `competitors` table has PRIMARY KEY (id) and only non-unique INDEXes, so the
  sole unique key relevant to `ON DUPLICATE KEY UPDATE` is `id`).

JavaScript conventions modelled explicitly:
- `x || d` on numbers: `0`, `null` and `undefined` are falsy, so they are all
  replaced by the default `d` (`jsOrInt`).
- a string is truthy iff it is present and non-empty (`strTruthy`).
- `Math.round` rounds half-way cases toward positive infinity
  (`jsRound` on a rational given as numerator/denominator).
- `Array.prototype.sort` is stable; it is modelled by `List.insertionSort`,
  which is also stable.
External HTTP calls are modelled as oracles (`ProviderEnv`): each possible
response, including a thrown error, is a value of an outcome type.
-/

namespace Beam

/-- JS `v || d` for a nullable number: `null`/`undefined`/`0` are falsy. -/
def jsOrInt (v : Option Int) (d : Int) : Int :=
  match v with
  | none => d
  | some x => if x = 0 then d else x

/-- JS truthiness of a nullable string: present and non-empty. -/
def strTruthy (s : Option String) : Bool :=
  match s with
  | none => false
  | some t => !t.isEmpty

/-- JS `Math.round (a / b)` for integer `a` and positive integer `b`:
half-way cases round toward positive infinity, i.e. `⌊a/b + 1/2⌋`. -/
def jsRound (a : Int) (b : Int) : Int :=
  Int.fdiv (2 * a + b) (2 * b)

/-! ## Aggregate Threat Calculator
`calculateThreatScore` in `threatScoringService.js`. The database reads are
factored out: the function below takes the `threat_score` column of the
non-deleted competitor rows of the website (nullable integers, as in the
schema) and the keyword count, and computes the returned object. -/

/-- Result object of `calculateThreatScore`. -/
structure ThreatResult where
  threat_level : String
  threat_score : Int
  competitor_count : Nat
  average_competitor_score : Int
  market_saturation : String
  ai_search_visibility : String
deriving Repr, DecidableEq

/-- `Math.max(...threatScores)` over a non-empty list (0 for the empty list,
which the caller never reaches). -/
def maxOf : List Int → Int
  | [] => 0
  | x :: xs => xs.foldl max x

/-- The "Determine threat level" count-bracket block of `calculateThreatScore`
(`threatScoringService.js` lines 45-69): base (level, score) from the
competitor count. -/
def baseBracket (competitorCount : Nat) : String × Int :=
  let nc : Int := (competitorCount : Int)
  if competitorCount ≥ 10 then
    ("CRITICAL", min 100 (80 + (nc - 10) * 2))
  else if competitorCount ≥ 7 then
    ("HIGH", min 100 (65 + (nc - 7) * 3))
  else if competitorCount ≥ 5 then
    ("MEDIUM", min 100 (50 + (nc - 5) * 3))
  else if competitorCount ≥ 3 then
    ("MEDIUM", 40 + nc * 2)
  else
    ("LOW", 20 + nc * 5)

/-- The "Adjust based on strongest competitor" block of `calculateThreatScore`
(lines 71-79). The `maxScore >= 75` branch runs two sequential `if`
statements, so a LOW base is rewritten to MEDIUM by the first and then to
HIGH by the second. -/
def escalate (maxScore : Int) (base : String × Int) : String × Int :=
  if maxScore ≥ 90 then
    ("CRITICAL", max base.2 85)
  else if maxScore ≥ 75 then
    let l1 := if base.1 = "LOW" then "MEDIUM" else base.1
    let l2 := if l1 = "MEDIUM" then "HIGH" else l1
    (l2, max base.2 70)
  else base

/-- The "Determine market saturation" block (lines 81-86). -/
def saturationBucket (competitorCount : Nat) : String :=
  if competitorCount ≥ 10 then "very_high"
  else if competitorCount ≥ 7 then "high"
  else if competitorCount ≥ 5 then "medium"
  else if competitorCount ≥ 3 then "medium"
  else "very_low"

/-- The AI-search-visibility block (lines 94-99). -/
def visibilityBucket (keywordCount : Nat) : String :=
  if keywordCount ≥ 20 then "very_high"
  else if keywordCount ≥ 15 then "high"
  else if keywordCount ≥ 10 then "medium"
  else if keywordCount ≥ 5 then "low"
  else "very_low"

/-- `calculateThreatScore(websiteId)` from `threatScoringService.js`, as a
function of the competitor `threat_score` column values (in query order; the
query's `ORDER BY` is irrelevant because every output is order-invariant) and
the keyword count. The early return for an empty competitor list uses the
literals `'low'` of the source (lines 26-35). -/
def calculateThreatScore (scores : List (Option Int)) (keywordCount : Nat) :
    ThreatResult :=
  if scores.length = 0 then
    { threat_level := "LOW"
      threat_score := 20
      competitor_count := 0
      average_competitor_score := 0
      market_saturation := "low"
      ai_search_visibility := "low" }
  else
    let threatScores : List Int := scores.map (fun c => jsOrInt c 50)
    let averageScore : Int :=
      jsRound (threatScores.foldl (fun a b => a + b) 0) (threatScores.length)
    let adjusted : String × Int :=
      escalate (maxOf threatScores) (baseBracket scores.length)
    { threat_level := adjusted.1
      threat_score := min 100 adjusted.2
      competitor_count := scores.length
      average_competitor_score := averageScore
      market_saturation := saturationBucket scores.length
      ai_search_visibility := visibilityBucket keywordCount }

/-! ## Competitor discovery service
`competitorDiscoveryService.js`. External HTTP calls (Tavily search, LLM
chat completions) are oracles: an outcome value describes everything the
code can observe of a call, including a thrown error or an unparseable
response. -/

/-- One entry of `response.data.results` of a Tavily search. All fields are
nullable untrusted data. -/
structure SearchResult where
  title : Option String
  url : Option String
  content : Option String
deriving Repr, DecidableEq

/-- Candidate produced by a research agent (`researchAgent` lines 67-75). -/
structure Candidate where
  name : String
  url : String
  description : Option String
  source : String
deriving Repr, DecidableEq

/-- `researchAgent(agentId, businessContext, searchQuery)`: the outcome of the
Tavily call is `none` when the request threw (the `catch` returns `[]`) and
`some results` otherwise (`response.data.results || []` makes a missing
array the same as an empty one). Filters entries with truthy `title` and
`url`, maps them to candidates, and keeps the first 5. -/
def researchAgent (outcome : Option (List SearchResult)) : List Candidate :=
  match outcome with
  | none => []
  | some results =>
    ((results.filter (fun r => strTruthy r.title && strTruthy r.url)).map
      (fun r =>
        { name := r.title.getD ""
          url := r.url.getD ""
          description := r.content
          source := "tavily_search" })).take 5

/-- One entry of the `validated_competitors` array parsed from the supervisor
LLM response (an entry whose `confidence` is missing or non-numeric never
passes the `c.confidence >= 80` filter, so entries are modelled with the
numeric fields present). -/
structure RawValidated where
  name : String
  url : String
  is_competitor : Bool
  confidence : Int
deriving Repr, DecidableEq

/-- Descending-confidence order used by the supervisor's
`sort((a, b) => b.confidence - a.confidence)`. -/
def confGe (a b : RawValidated) : Prop := b.confidence ≤ a.confidence

instance : DecidableRel confGe :=
  fun a b => inferInstanceAs (Decidable (b.confidence ≤ a.confidence))

instance : IsTotal RawValidated confGe :=
  ⟨fun a b => le_total b.confidence a.confidence⟩

instance : IsTrans RawValidated confGe :=
  ⟨fun _ _ _ hab hbc => le_trans hbc hab⟩

/-- Outcome of the supervisor LLM call: `failure` covers a thrown request, a
response with no `{...}` match, and JSON without a usable
`validated_competitors` array (all reach the `return []` paths); `parsed`
carries the parsed array. -/
inductive SupvOutcome where
  | failure : SupvOutcome
  | parsed : List RawValidated → SupvOutcome

/-- The `is_competitor && confidence >= 80` filter of `supervisorAgent`
(line 159). -/
def passesFilter (c : RawValidated) : Bool :=
  c.is_competitor && decide (80 ≤ c.confidence)

/-- `supervisorAgent(businessContext, allCandidates)` (lines 149-168): filter
to confident competitors, sort by confidence descending (JS `sort` is
stable; `insertionSort` is the matching stable sort), keep the top 5. -/
def supervisorAgent (outcome : SupvOutcome) : List RawValidated :=
  match outcome with
  | .failure => []
  | .parsed xs =>
    (((xs.filter passesFilter).insertionSort confGe).take 5)

/-- Parsed JSON object of one threat-scoring LLM response
(`calculateCompetitorThreat`). Only the keys the pipeline reads downstream
are modelled: `total_threat_score` and `threat_level` are persisted, and a
`confidence` key — though not requested by the prompt — would be spread over
the validated entry by `{...competitor, ...threatData}` and replace the
validator's confidence, so it is kept as an optional override. The four
sub-scores are never read after parsing and are omitted. -/
structure ThreatJson where
  total_threat_score : Option Int
  threat_level : Option String
  confidence : Option Int
deriving Repr, DecidableEq

/-- Outcome of one threat-scoring LLM call: `failure` covers a thrown request
and a response with no `{...}` match. -/
inductive ThreatOutcome where
  | failure : ThreatOutcome
  | parsed : ThreatJson → ThreatOutcome

/-- `calculateCompetitorThreat(competitor, businessContext)` (lines 174-240):
on failure, the neutral default `{total_threat_score: 50, threat_level:
'MEDIUM'}` (which has no `confidence` key). -/
def calculateCompetitorThreat (outcome : ThreatOutcome) : ThreatJson :=
  match outcome with
  | .failure =>
    { total_threat_score := some 50, threat_level := some "MEDIUM",
      confidence := none }
  | .parsed j => j

/-- A validated competitor merged with its threat data,
`{...competitor, ...threatData}` (lines 297-300): keys present in the threat
JSON override the validator's. -/
structure ScoredCompetitor where
  name : String
  url : String
  confidence : Option Int
  total_threat_score : Option Int
  threat_level : Option String
deriving Repr, DecidableEq

/-- The object spread `{...competitor, ...threatData}`. -/
def mergeThreat (c : RawValidated) (j : ThreatJson) : ScoredCompetitor :=
  { name := c.name
    url := c.url
    confidence := match j.confidence with
      | some v => some v
      | none => some c.confidence
    total_threat_score := j.total_threat_score
    threat_level := j.threat_level }

/-- Step of the dedup `new Map(allCandidates.map(c => [c.url, c]))`: a later
entry with an already-present URL overwrites the stored value but keeps the
original insertion position; a new URL is appended. -/
def insertCandidate (acc : List Candidate) (c : Candidate) : List Candidate :=
  if acc.any (fun d => d.url = c.url) then
    acc.map (fun d => if d.url = c.url then c else d)
  else acc ++ [c]

/-- `Array.from(new Map(allCandidates.map(c => [c.url, c])).values())`
(lines 281-283). -/
def dedupByUrl (cs : List Candidate) : List Candidate :=
  cs.foldl insertCandidate []

/-! ## Relational store
Tables as lists of rows, in insertion order. Timestamps are not modelled.
`UUID()` values are modelled as fresh natural numbers drawn from a counter
carried in the store. -/

/-- Row of `websites` (`run-migrations.js` lines 207-222). -/
structure WebsiteRow where
  id : String
  business_name : String
  business_type : String
  location : String
  website_url : Option String
  status : String
  deleted : Bool
deriving Repr, DecidableEq

/-- Row of `business_types`: the JSON columns are modelled parsed
(`keywords ? JSON.parse(keywords) : []` in `extractBusinessContext`). -/
structure BusinessTypeRow where
  type_name : String
  keywords : Option (List String)
  typical_competitors : Option (List String)
deriving Repr, DecidableEq

/-- Row of `competitors` (lines 225-240 of the migration). The table's only
unique key is `PRIMARY KEY (id)`; `website_id`, `threat_level` and
`discovered_at` carry plain non-unique INDEXes. -/
structure CompetitorRow where
  id : Nat
  website_id : String
  competitor_name : String
  competitor_url : String
  threat_level : Option String
  threat_score : Option Int
  confidence : Int
  deleted : Bool
deriving Repr, DecidableEq

/-- Row of `competitor_discovery_jobs` (lines 375-386 of the migration). -/
structure JobRow where
  id : Nat
  website_id : String
  status : String
  error_message : Option String
  competitors_found : Option Nat
deriving Repr, DecidableEq

/-- Row of `keywords` (only the ownership column is read by the core). -/
structure KeywordRow where
  website_id : String
deriving Repr, DecidableEq

/-- Row of `threat_assessments`, restricted to the columns the weekly refresh
INSERT writes (`automationService.js` lines 88-98). -/
structure AssessmentRow where
  id : Nat
  website_id : String
  threat_level : String
  threat_score : Int
  competitor_count : Nat
  average_competitor_score : Int
deriving Repr, DecidableEq

/-- The relational store plus the fresh-id counter. -/
structure DB where
  websites : List WebsiteRow
  business_types : List BusinessTypeRow
  competitors : List CompetitorRow
  jobs : List JobRow
  keywords : List KeywordRow
  threat_assessments : List AssessmentRow
  nextId : Nat
deriving Repr, DecidableEq

/-- Draw a fresh id (models `UUID()` / `uuid.v4()` never colliding). -/
def freshId (db : DB) : Nat × DB :=
  (db.nextId, { db with nextId := db.nextId + 1 })

/-- `BusinessContext` returned by `extractBusinessContext` (lines 36-43). -/
structure BusinessContext where
  business_name : String
  business_type : String
  location : String
  website_url : Option String
  keywords : List String
  typical_competitors : List String
deriving Repr, DecidableEq

/-- The context built from a found website row and its (optional)
`business_types` join row. -/
def contextOfRow (db : DB) (w : WebsiteRow) : BusinessContext :=
  let bt := db.business_types.find? (fun b => b.type_name = w.business_type)
  { business_name := w.business_name
    business_type := w.business_type
    location := w.location
    website_url := w.website_url
    keywords := (bt.bind (fun b => b.keywords)).getD []
    typical_competitors :=
      (bt.bind (fun b => b.typical_competitors)).getD [] }

/-- `extractBusinessContext(websiteId)` (lines 23-48): `queryOne` over
`websites LEFT JOIN business_types` by id (no soft-delete filter in this
query); throws `'Website not found'` when the website row is absent; a
missing join row leaves the JSON columns NULL, which default to `[]`. -/
def extractBusinessContext (db : DB) (websiteId : String) :
    Except String BusinessContext :=
  match db.websites.find? (fun w => w.id = websiteId) with
  | none => .error "Website not found"
  | some w => .ok (contextOfRow db w)

/-! ## Discovery orchestrator -/

/-- The external-call oracles of one world: responses are functions of what
the code sends (agent id and query string; business context and candidate
list; the validated competitor being scored). Running the pipeline twice in
the same world yields identical provider responses. -/
structure ProviderEnv where
  searchOutcome : Nat → String → Option (List SearchResult)
  supervisorOutcome : BusinessContext → List Candidate → SupvOutcome
  threatOutcome : RawValidated → ThreatOutcome

/-- The three query templates of `discoverCompetitors` step 2
(lines 262-266). -/
def searchQueries (ctx : BusinessContext) : List String :=
  [ctx.business_type ++ " competitors " ++ ctx.location,
   "best " ++ ctx.business_type ++ " in " ++ ctx.location,
   ctx.business_type ++ " alternatives to " ++ ctx.business_name]

/-- MySQL `INSERT ... ON DUPLICATE KEY UPDATE` into `competitors`
(lines 306-322): the update fires only when the new row collides on a unique
key of the table, and the migration gives `competitors` no unique key other
than `PRIMARY KEY (id)`; the inserted id is a fresh `UUID()`, so with fresh
ids the statement always appends. On an id collision the listed columns
(`threat_level`, `threat_score`, `confidence`) are updated in place. -/
def upsertCompetitorRow (rows : List CompetitorRow) (row : CompetitorRow) :
    List CompetitorRow :=
  if rows.any (fun r => r.id = row.id) then
    rows.map (fun r =>
      if r.id = row.id then
        { r with threat_level := row.threat_level,
                 threat_score := row.threat_score,
                 confidence := row.confidence }
      else r)
  else rows ++ [row]

/-- The competitor row built by the store loop of `discoverCompetitors`
(step 6): `threat_score` is `competitor.total_threat_score || 50` and
`confidence` is `competitor.confidence || 80` — JS `||`, so a value of 0 is
replaced by the default as well. -/
def mkCompetitorRow (id : Nat) (websiteId : String) (c : ScoredCompetitor) :
    CompetitorRow :=
  { id := id
    website_id := websiteId
    competitor_name := c.name
    competitor_url := c.url
    threat_level := c.threat_level
    threat_score := some (jsOrInt c.total_threat_score 50)
    confidence := jsOrInt c.confidence 80
    deleted := false }

/-- One iteration of the store loop. -/
def storeCompetitor (websiteId : String) (db : DB) (c : ScoredCompetitor) :
    DB :=
  let p := freshId db
  { p.2 with
    competitors := upsertCompetitorRow p.2.competitors
      (mkCompetitorRow p.1 websiteId c) }

/-- The failure-path update of `discoverCompetitors` (lines 338-342):
`UPDATE competitor_discovery_jobs SET status = 'failed', error_message = ?
WHERE website_id = ?` — the WHERE clause matches on `website_id`, not on the
job id, so every job row of the website is rewritten. -/
def markJobsFailed (jobs : List JobRow) (websiteId : String) (msg : String) :
    List JobRow :=
  jobs.map (fun j =>
    if j.website_id = websiteId then
      { j with status := "failed", error_message := some msg }
    else j)

/-- The success-path update (lines 326-330): `SET status = 'completed',
competitors_found = ? WHERE id = ?`. -/
def markJobCompleted (jobs : List JobRow) (jobId : Nat) (found : Nat) :
    List JobRow :=
  jobs.map (fun j =>
    if j.id = jobId then
      { j with status := "completed", competitors_found := some found }
    else j)

/-- The job row inserted at the start of a run (lines 250-255; the row is
created directly in `in_progress`). -/
def pendingJob (jobId : Nat) (websiteId : String) : JobRow :=
  { id := jobId, website_id := websiteId, status := "in_progress",
    error_message := none, competitors_found := none }

/-- Steps 2-5 of `discoverCompetitors`: queries, three research agents,
URL dedup, supervisor validation, per-competitor threat scoring. This part
touches no state; every external call goes through the oracles. -/
def runPipeline (env : ProviderEnv) (ctx : BusinessContext) :
    List ScoredCompetitor :=
  let qs := searchQueries ctx
  let agent1 := researchAgent (env.searchOutcome 1 (qs.getD 0 ""))
  let agent2 := researchAgent (env.searchOutcome 2 (qs.getD 1 ""))
  let agent3 := researchAgent (env.searchOutcome 3 (qs.getD 2 ""))
  let uniqueCandidates := dedupByUrl (agent1 ++ agent2 ++ agent3)
  let validated :=
    supervisorAgent (env.supervisorOutcome ctx uniqueCandidates)
  validated.map
    (fun c => mergeThreat c (calculateCompetitorThreat (env.threatOutcome c)))

/-- `discoverCompetitors(websiteId)` (lines 245-346): insert an
`in_progress` job row, resolve the business context (a failure there is the
only throwing step in this model; agent, supervisor and scorer failures are
absorbed by their oracles), run the pipeline, store the scored competitors,
and complete the job. The thrown error is re-thrown to the caller after the
failure-path job update. -/
def discoverCompetitors (env : ProviderEnv) (websiteId : String) (db : DB) :
    Except String (List ScoredCompetitor) × DB :=
  let p := freshId db
  let jobId := p.1
  let db1 : DB := { p.2 with jobs := p.2.jobs ++ [pendingJob jobId websiteId] }
  match extractBusinessContext db1 websiteId with
  | .error e =>
    (.error e, { db1 with jobs := markJobsFailed db1.jobs websiteId e })
  | .ok ctx =>
    let scored := runPipeline env ctx
    let db2 := scored.foldl (storeCompetitor websiteId) db1
    let db3 :=
      { db2 with jobs := markJobCompleted db2.jobs jobId scored.length }
    (.ok scored, db3)

/-! ## Aggregate calculator over the store, and the weekly batch -/

/-- The `threat_score` column of the website's non-deleted competitor rows
(the SELECT of `calculateThreatScore`, lines 20-24). -/
def competitorScoresFor (db : DB) (websiteId : String) : List (Option Int) :=
  (db.competitors.filter
    (fun r => r.website_id = websiteId && !r.deleted)).map
    (fun r => r.threat_score)

/-- `SELECT COUNT(*) FROM keywords WHERE website_id = ?` (lines 89-92; no
soft-delete filter in this query). -/
def keywordCountFor (db : DB) (websiteId : String) : Nat :=
  (db.keywords.filter (fun k => k.website_id = websiteId)).length

/-- `calculateThreatScore(websiteId)` including its database reads. -/
def calculateThreatScoreDb (db : DB) (websiteId : String) : ThreatResult :=
  calculateThreatScore (competitorScoresFor db websiteId)
    (keywordCountFor db websiteId)

/-- Tally reported by a batch run (`successCount`/`errorCount`). -/
structure WeeklyResult where
  success : Nat
  error : Nat
  db : DB

/-- The body of the `for` loop of `performWeeklyRefresh`
(`automationService.js` lines 77-111): discovery, aggregate threat score,
assessment insert. Returns whether the body completed without throwing. In
this model the only throwing step is discovery's context resolution; the
website `updated_at` touch has no observable effect here and is omitted. -/
def weeklyStep (env : ProviderEnv) (db : DB) (websiteId : String) :
    Bool × DB :=
  match discoverCompetitors env websiteId db with
  | (.error _, db1) => (false, db1)
  | (.ok _, db1) =>
    let t := calculateThreatScoreDb db1 websiteId
    let p := freshId db1
    (true,
      { p.2 with threat_assessments := p.2.threat_assessments ++
          [{ id := p.1, website_id := websiteId,
             threat_level := t.threat_level,
             threat_score := t.threat_score,
             competitor_count := t.competitor_count,
             average_competitor_score := t.average_competitor_score }] })

/-- The `for` loop of `performWeeklyRefresh` over the fetched website list:
each item's body is wrapped in try/catch, a throw increments `errorCount`
and iteration continues with the next website. -/
def weeklyRefreshLoop (env : ProviderEnv) (websiteIds : List String)
    (acc : WeeklyResult) : WeeklyResult :=
  match websiteIds with
  | [] => acc
  | wid :: rest =>
    let s := weeklyStep env acc.db wid
    if s.1 then
      weeklyRefreshLoop env rest
        { success := acc.success + 1, error := acc.error, db := s.2 }
    else
      weeklyRefreshLoop env rest
        { success := acc.success, error := acc.error + 1, db := s.2 }

/-- Ids of active non-deleted websites (the batch query, lines 65-70; the
`ORDER BY updated_at` only permutes the iteration order and timestamps are
not modelled, so table order is used). -/
def activeWebsiteIds (db : DB) : List String :=
  (db.websites.filter (fun w => !w.deleted && w.status = "active")).map
    (fun w => w.id)

/-- `performWeeklyRefresh()` (lines 62-117). -/
def performWeeklyRefresh (env : ProviderEnv) (db : DB) : WeeklyResult :=
  weeklyRefreshLoop env (activeWebsiteIds db)
    { success := 0, error := 0, db := db }

/-! ## Predicates and concrete fixtures used by the claim theorems -/

/-- A supervisor response judges only the candidates it was given: every
entry of a parsed `validated_competitors` array names the URL of one of the
candidates listed in the request (a failed call trivially satisfies this).
This is the behaviour of a non-failing reasoning service that answers the
question asked; the code itself accepts arbitrary parsed entries. -/
def supvJudgesGiven (cands : List Candidate) (o : SupvOutcome) : Prop :=
  match o with
  | .failure => True
  | .parsed xs => ∀ e ∈ xs, e.url ∈ cands.map (fun c => c.url)

/-- Fixture website row. -/
def wRow1 : WebsiteRow :=
  { id := "w1", business_name := "Acme Plumbing", business_type := "plumber",
    location := "Austin", website_url := none, status := "active",
    deleted := false }

/-- Second fixture website row. -/
def wRow3 : WebsiteRow :=
  { id := "w3", business_name := "Cafe Tre", business_type := "cafe",
    location := "Denton", website_url := none, status := "active",
    deleted := false }

/-- A world where every external call fails: searches throw, the supervisor
response is unparseable, the scorer response is unparseable. -/
def envNone : ProviderEnv :=
  { searchOutcome := fun _ _ => none
    supervisorOutcome := fun _ _ => .failure
    threatOutcome := fun _ => .failure }

/-- A world with one fixed search hit for agent 1, a supervisor that
validates every candidate it is shown with confidence 90, and a scorer
answering a fixed threat of 70. Responses are functions of the request, so
two runs see identical responses. -/
def envOneRival : ProviderEnv :=
  { searchOutcome := fun agentId _ =>
      if agentId = 1 then
        some [{ title := some "Best Plumbers",
                url := some "https://rival.example",
                content := some "a rival" }]
      else none
    supervisorOutcome := fun _ cands =>
      .parsed (cands.map (fun c =>
        { name := c.name, url := c.url, is_competitor := true,
          confidence := 90 }))
    threatOutcome := fun _ =>
      .parsed { total_threat_score := some 70, threat_level := some "HIGH",
                confidence := none } }

/-- Like `envOneRival`, but the scorer's parsed JSON carries a composite
`total_threat_score` of exactly 0 and a `confidence` of 0. -/
def envZeroScore : ProviderEnv :=
  { envOneRival with
    threatOutcome := fun _ =>
      .parsed { total_threat_score := some 0, threat_level := some "LOW",
                confidence := some 0 } }

/-- Store holding only the `w1` website. -/
def dbOneSite : DB :=
  { websites := [wRow1], business_types := [], competitors := [], jobs := [],
    keywords := [], threat_assessments := [], nextId := 0 }

/-- Store with no `w1` website but a previously completed discovery job for
it. -/
def dbPriorJob : DB :=
  { websites := [], business_types := [], competitors := [],
    jobs := [{ id := 100, website_id := "w1", status := "completed",
               error_message := none, competitors_found := some 3 }],
    keywords := [], threat_assessments := [], nextId := 0 }

/-- Store holding the `w1` and `w3` websites, both active. -/
def dbTwoSites : DB :=
  { websites := [wRow1, wRow3], business_types := [], competitors := [],
    jobs := [], keywords := [], threat_assessments := [], nextId := 0 }

/-- First discovery run of `envOneRival` against `dbOneSite`. -/
def discoveryOnce : Except String (List ScoredCompetitor) × DB :=
  discoverCompetitors envOneRival "w1" dbOneSite

/-- Second discovery run in the same world, on the state left by the
first. -/
def discoveryTwice : Except String (List ScoredCompetitor) × DB :=
  discoverCompetitors envOneRival "w1" discoveryOnce.2

/-- The weekly-refresh loop over websites `w1`, `w2`, `w3` in a world where
every provider call fails; `w2` has no website row, so its refresh throws
`'Website not found'` inside the loop body. -/
def weeklyScenario : WeeklyResult :=
  weeklyRefreshLoop envNone ["w1", "w2", "w3"]
    { success := 0, error := 0, db := dbTwoSites }

/-- The scored competitor produced by `envZeroScore` for the single rival
candidate: composite score exactly 0, confidence overridden to 0. -/
def scoredZero : ScoredCompetitor :=
  { name := "Best Plumbers", url := "https://rival.example",
    confidence := some 0, total_threat_score := some 0,
    threat_level := some "LOW" }

/-! ## Helper lemmas -/

/-- Unfolding of `calculateThreatScore` on a non-empty score list. -/
theorem calculateThreatScore_of_ne_nil (scores : List (Option Int))
    (kw : Nat) (h : scores ≠ []) :
    calculateThreatScore scores kw =
      { threat_level :=
          (escalate (maxOf (scores.map (fun c => jsOrInt c 50)))
            (baseBracket scores.length)).1
        threat_score :=
          min 100 ((escalate (maxOf (scores.map (fun c => jsOrInt c 50)))
            (baseBracket scores.length)).2)
        competitor_count := scores.length
        average_competitor_score :=
          jsRound ((scores.map (fun c => jsOrInt c 50)).foldl
            (fun a b => a + b) 0) ((scores.map (fun c => jsOrInt c 50)).length)
        market_saturation := saturationBucket scores.length
        ai_search_visibility := visibilityBucket kw } := by
  have hlen : ¬ scores.length = 0 := by
    simpa [List.length_eq_zero] using h
  simp only [calculateThreatScore, if_neg hlen]

theorem escalate_of_lt (m : Int) (b : String × Int) (h : m < 75) :
    escalate m b = b := by
  unfold escalate
  rw [if_neg (by omega), if_neg (by omega)]

theorem escalate_of_ge_90 (m : Int) (b : String × Int) (h : 90 ≤ m) :
    escalate m b = ("CRITICAL", max b.2 85) := by
  unfold escalate
  rw [if_pos (by omega)]

theorem escalate_mid (m : Int) (b : String × Int) (h75 : 75 ≤ m)
    (h90 : m < 90) :
    escalate m b =
      ((if b.1 = "LOW" ∨ b.1 = "MEDIUM" then "HIGH" else b.1),
        max b.2 70) := by
  unfold escalate
  rw [if_neg (by omega), if_pos (by omega)]
  by_cases hL : b.1 = "LOW"
  · simp [hL]
  · by_cases hM : b.1 = "MEDIUM"
    · simp [hL, hM]
    · simp [hL, hM]

/-- Claim C2, as frozen, is false: with one competitor of score 80 the count
bracket gives a base level of LOW and the maximum score lies in [75, 90), so
the claim predicts an escalation of exactly one step to MEDIUM; the code
runs its two `if` statements in sequence and returns HIGH. -/
theorem C2_counterexample_low_base :
    (calculateThreatScore [some 80] 0).threat_level ≠ "MEDIUM"
    ∧ (calculateThreatScore [some 80] 0).threat_level = "HIGH" := by
  constructor
  · decide
  · decide

/-- Claim C2 (amended): for a non-empty competitor list with maximum score m,
if m ≥ 90 the level is CRITICAL and the score max(base, 85); if 75 ≤ m < 90
a base level of LOW or MEDIUM becomes HIGH (a LOW base is escalated twice,
through MEDIUM, by the two sequential `if` statements) and any other base
level is kept, and the score becomes max(base, 70). -/
theorem C2_escalation (scores : List (Option Int)) (kw : Nat)
    (h : scores ≠ []) :
    (90 ≤ maxOf (scores.map (fun c => jsOrInt c 50)) →
      (calculateThreatScore scores kw).threat_level = "CRITICAL"
      ∧ (calculateThreatScore scores kw).threat_score =
          min 100 (max (baseBracket scores.length).2 85))
    ∧ (75 ≤ maxOf (scores.map (fun c => jsOrInt c 50)) →
      maxOf (scores.map (fun c => jsOrInt c 50)) < 90 →
      (calculateThreatScore scores kw).threat_level =
        (if (baseBracket scores.length).1 = "LOW"
            ∨ (baseBracket scores.length).1 = "MEDIUM" then "HIGH"
         else (baseBracket scores.length).1)
      ∧ (calculateThreatScore scores kw).threat_score =
          min 100 (max (baseBracket scores.length).2 70)) := by
  refine ⟨fun h90 => ?_, fun h75 h90 => ?_⟩
  · rw [calculateThreatScore_of_ne_nil scores kw h]
    rw [escalate_of_ge_90 _ _ h90]
    exact ⟨rfl, rfl⟩
  · rw [calculateThreatScore_of_ne_nil scores kw h]
    rw [escalate_mid _ _ h75 h90]
    exact ⟨rfl, rfl⟩

/-- Witness for `C2_escalation` at the concrete input `[80]`. -/
theorem C2_escalation_witness :
    (calculateThreatScore [some 80] 0).threat_level = "HIGH"
    ∧ (calculateThreatScore [some 80] 0).threat_score = 70 := by
  have h := (C2_escalation [some 80] 0 (by decide)).2 (by decide) (by decide)
  exact ⟨h.1.trans (by decide), h.2.trans (by decide)⟩

/-- Claim C4, as frozen, is false: with 0 persisted competitors the early
return of `calculateThreatScore` fills `market_saturation` and
`ai_search_visibility` with `'low'`, not `'very_low'`. -/
theorem C4_counterexample_buckets :
    (calculateThreatScoreDb dbOneSite "w1").market_saturation ≠ "very_low"
    ∧ (calculateThreatScoreDb dbOneSite "w1").ai_search_visibility ≠ "very_low" := by
  constructor
  · decide
  · decide

/-- Claim C4 (amended): for a website with 0 persisted competitors (and 0
keywords) the result is exactly {LOW, 20, count 0, saturation low,
visibility low}. -/
theorem C4_zero_competitors (db : DB) (wid : String)
    (h1 : competitorScoresFor db wid = [])
    (h2 : keywordCountFor db wid = 0) :
    calculateThreatScoreDb db wid =
      { threat_level := "LOW", threat_score := 20, competitor_count := 0,
        average_competitor_score := 0, market_saturation := "low",
        ai_search_visibility := "low" } := by
  unfold calculateThreatScoreDb
  rw [h1, h2]
  decide

/-- Witness for `C4_zero_competitors` at the concrete store `dbOneSite`. -/
theorem C4_zero_competitors_witness :
    calculateThreatScoreDb dbOneSite "w1" =
      { threat_level := "LOW", threat_score := 20, competitor_count := 0,
        average_competitor_score := 0, market_saturation := "low",
        ai_search_visibility := "low" } :=
  C4_zero_competitors dbOneSite "w1" (by decide) (by decide)

/-- Claim C6: brackets, buckets, clamp, and the 11-competitor case. -/
theorem C6_count_brackets :
    (∀ (scores : List (Option Int)) (kw : Nat), scores ≠ [] →
      let r := calculateThreatScore scores kw
      let n := scores.length
      r.market_saturation =
        (if 10 ≤ n then "very_high" else if 7 ≤ n then "high"
         else if 5 ≤ n then "medium" else if 3 ≤ n then "medium"
         else "very_low")
      ∧ r.ai_search_visibility =
        (if 20 ≤ kw then "very_high" else if 15 ≤ kw then "high"
         else if 10 ≤ kw then "medium" else if 5 ≤ kw then "low"
         else "very_low")
      ∧ r.threat_score ≤ 100
      ∧ (maxOf (scores.map (fun c => jsOrInt c 50)) < 75 →
          r.threat_level = (baseBracket n).1
          ∧ r.threat_score = min 100 (baseBracket n).2))
    ∧ (∀ n : Nat,
        (10 ≤ n → baseBracket n =
          ("CRITICAL", min 100 (80 + ((n : Int) - 10) * 2)))
        ∧ (7 ≤ n → n ≤ 9 →
          baseBracket n = ("HIGH", 65 + ((n : Int) - 7) * 3))
        ∧ (5 ≤ n → n ≤ 6 →
          baseBracket n = ("MEDIUM", 50 + ((n : Int) - 5) * 3))
        ∧ (3 ≤ n → n ≤ 4 →
          baseBracket n = ("MEDIUM", 40 + (n : Int) * 2))
        ∧ (1 ≤ n → n ≤ 2 →
          baseBracket n = ("LOW", 20 + (n : Int) * 5)))
    ∧ calculateThreatScore (List.replicate 11 (some 60)) 3 =
        { threat_level := "CRITICAL", threat_score := 82,
          competitor_count := 11, average_competitor_score := 60,
          market_saturation := "very_high",
          ai_search_visibility := "very_low" } := by
  refine ⟨fun scores kw h => ?_, fun n => ?_, by decide⟩
  · rw [calculateThreatScore_of_ne_nil scores kw h]
    refine ⟨rfl, rfl, min_le_left _ _, fun hm => ?_⟩
    rw [escalate_of_lt _ _ hm]
    exact ⟨rfl, rfl⟩
  · refine ⟨fun h10 => ?_, fun h7 h9 => ?_, fun h5 h6 => ?_,
      fun h3 h4 => ?_, fun h1 h2 => ?_⟩
    · unfold baseBracket
      rw [if_pos (by omega)]
    · unfold baseBracket
      rw [if_neg (by omega), if_pos (by omega)]
      simp only [Prod.mk.injEq, true_and]
      exact min_eq_right (by omega)
    · unfold baseBracket
      rw [if_neg (by omega), if_neg (by omega), if_pos (by omega)]
      simp only [Prod.mk.injEq, true_and]
      exact min_eq_right (by omega)
    · unfold baseBracket
      rw [if_neg (by omega), if_neg (by omega), if_neg (by omega),
        if_pos (by omega)]
    · unfold baseBracket
      rw [if_neg (by omega), if_neg (by omega), if_neg (by omega),
        if_neg (by omega)]

/-- Witness for `C6_count_brackets` at 11 competitors of score 60 and 3
keywords. -/
theorem C6_count_brackets_witness :
    (calculateThreatScore (List.replicate 11 (some 60)) 3).market_saturation
      = "very_high"
    ∧ baseBracket 11 = ("CRITICAL", 82) := by
  have h := (C6_count_brackets.1 (List.replicate 11 (some 60)) 3 (by decide)).1
  have h2 := (C6_count_brackets.2.1 11).1 (by decide)
  exact ⟨h.trans (by decide), h2.trans (by decide)⟩

/-- Claim C7: filter, boundary, descending sort, cap at 5, and the two
concrete examples. -/
theorem C7_supervisor_filter :
    (∀ xs : List RawValidated,
      (∀ c ∈ supervisorAgent (.parsed xs),
        c ∈ xs ∧ c.is_competitor = true ∧ 80 ≤ c.confidence)
      ∧ (supervisorAgent (.parsed xs)).Sorted confGe
      ∧ (supervisorAgent (.parsed xs)).length ≤ 5
      ∧ ((xs.filter passesFilter).length ≤ 5 →
          List.Perm (supervisorAgent (.parsed xs)) (xs.filter passesFilter)))
    ∧ (supervisorAgent (.parsed
        [{ name := "a", url := "a", is_competitor := true, confidence := 95 },
         { name := "b", url := "b", is_competitor := true, confidence := 79 },
         { name := "c", url := "c", is_competitor := true, confidence := 80 },
         { name := "d", url := "d", is_competitor := true, confidence := 60 }])).map
        (fun c => c.confidence) = [95, 80]
    ∧ (supervisorAgent (.parsed
        [{ name := "a", url := "a", is_competitor := true, confidence := 81 },
         { name := "b", url := "b", is_competitor := true, confidence := 85 },
         { name := "c", url := "c", is_competitor := true, confidence := 82 },
         { name := "d", url := "d", is_competitor := true, confidence := 88 },
         { name := "e", url := "e", is_competitor := true, confidence := 83 },
         { name := "f", url := "f", is_competitor := true, confidence := 86 },
         { name := "g", url := "g", is_competitor := true, confidence := 84 },
         { name := "h", url := "h", is_competitor := true, confidence := 87 }])).map
        (fun c => c.confidence) = [88, 87, 86, 85, 84] := by
  refine ⟨fun xs => ?_, by decide, by decide⟩
  have hperm : List.Perm ((xs.filter passesFilter).insertionSort confGe)
      (xs.filter passesFilter) := List.perm_insertionSort confGe _
  refine ⟨fun c hc => ?_, ?_, ?_, fun hlen => ?_⟩
  · have hc2 : c ∈ (xs.filter passesFilter).insertionSort confGe :=
      List.take_subset 5 _ hc
    have hc3 : c ∈ xs.filter passesFilter := hperm.mem_iff.mp hc2
    have hc4 := List.mem_filter.mp hc3
    refine ⟨hc4.1, ?_, ?_⟩
    · have := hc4.2
      simp only [passesFilter, Bool.and_eq_true, decide_eq_true_eq] at this
      exact this.1
    · have := hc4.2
      simp only [passesFilter, Bool.and_eq_true, decide_eq_true_eq] at this
      exact this.2
  · exact List.Pairwise.sublist (List.take_sublist 5 _)
      (List.sorted_insertionSort confGe _)
  · show (((xs.filter passesFilter).insertionSort confGe).take 5).length ≤ 5
    rw [List.length_take]
    exact min_le_left _ _
  · have hlen2 : ((xs.filter passesFilter).insertionSort confGe).length ≤ 5 :=
      (hperm.length_eq).le.trans hlen
    rw [supervisorAgent, List.take_of_length_le hlen2]
    exact hperm

/-- Witness for `C7_supervisor_filter`: at the four-candidate input the
output is a permutation of the passing entries. -/
theorem C7_supervisor_filter_witness :
    List.Perm (supervisorAgent (.parsed
      [{ name := "a", url := "a", is_competitor := true, confidence := 95 },
       { name := "b", url := "b", is_competitor := true, confidence := 79 },
       { name := "c", url := "c", is_competitor := true, confidence := 80 },
       { name := "d", url := "d", is_competitor := true, confidence := 60 }]))
      ([{ name := "a", url := "a", is_competitor := true, confidence := 95 },
        { name := "b", url := "b", is_competitor := true, confidence := 79 },
        { name := "c", url := "c", is_competitor := true, confidence := 80 },
        { name := "d", url := "d", is_competitor := true, confidence := 60 }].filter
        passesFilter) :=
  (C7_supervisor_filter.1 _).2.2.2 (by decide)

/-- Claim C8: at most 5 candidates, each with a (truthy) name and URL; a
provider error yields the empty list. -/
theorem C8_research_agent (o : Option (List SearchResult)) :
    (researchAgent o).length ≤ 5
    ∧ (∀ c ∈ researchAgent o, c.name ≠ "" ∧ c.url ≠ "")
    ∧ (o = none → researchAgent o = []) := by
  refine ⟨?_, fun c hc => ?_, fun h => by rw [h]; rfl⟩
  · cases o with
    | none => simp [researchAgent]
    | some results =>
      show ((List.map _ _).take 5).length ≤ 5
      rw [List.length_take]
      exact min_le_left _ _
  · cases o with
    | none => simp [researchAgent] at hc
    | some results =>
      have hc2 : c ∈ (results.filter
          (fun r => strTruthy r.title && strTruthy r.url)).map _ :=
        List.take_subset 5 _ hc
      obtain ⟨r, hr, hrc⟩ := List.mem_map.mp hc2
      have hf := (List.mem_filter.mp hr).2
      simp only [Bool.and_eq_true] at hf
      obtain ⟨ht, hu⟩ := hf
      constructor
      · intro hname
        rw [← hrc] at hname
        cases htitle : r.title with
        | none => rw [htitle] at ht; simp [strTruthy] at ht
        | some t =>
          rw [htitle] at ht hname
          simp only [strTruthy, Bool.not_eq_true'] at ht
          simp only [Option.getD_some] at hname
          rw [hname] at ht
          simp [String.isEmpty] at ht
      · intro hurl
        rw [← hrc] at hurl
        cases hu2 : r.url with
        | none => rw [hu2] at hu; simp [strTruthy] at hu
        | some u =>
          rw [hu2] at hu hurl
          simp only [strTruthy, Bool.not_eq_true'] at hu
          simp only [Option.getD_some] at hurl
          rw [hurl] at hu
          simp [String.isEmpty] at hu

/-- Witness for `C8_research_agent` at a throwing provider call. -/
theorem C8_research_agent_witness :
    researchAgent none = [] :=
  (C8_research_agent none).2.2 rfl

/-- Shape of a run whose context resolution fails: the error is re-thrown
and the failure UPDATE rewrites every job row of the website. -/
theorem discoverCompetitors_not_found (env : ProviderEnv) (db : DB)
    (wid : String) (h : db.websites.find? (fun w => w.id = wid) = none) :
    discoverCompetitors env wid db =
      (.error "Website not found",
       { db with nextId := db.nextId + 1,
                 jobs := markJobsFailed (db.jobs ++ [pendingJob db.nextId wid])
                   wid "Website not found" }) := by
  simp only [discoverCompetitors, extractBusinessContext, freshId]
  rw [h]

/-- Shape of a run whose context resolution succeeds. -/
theorem discoverCompetitors_found (env : ProviderEnv) (db : DB)
    (wid : String) (w : WebsiteRow)
    (h : db.websites.find? (fun x => x.id = wid) = some w) :
    discoverCompetitors env wid db =
      (Except.ok (runPipeline env (contextOfRow db w)),
       { (runPipeline env (contextOfRow db w)).foldl (storeCompetitor wid)
           { db with nextId := db.nextId + 1,
                     jobs := db.jobs ++ [pendingJob db.nextId wid] } with
         jobs := markJobCompleted
           ((runPipeline env (contextOfRow db w)).foldl (storeCompetitor wid)
             { db with nextId := db.nextId + 1,
                       jobs := db.jobs ++ [pendingJob db.nextId wid] }).jobs
           db.nextId (runPipeline env (contextOfRow db w)).length }) := by
  simp only [discoverCompetitors, extractBusinessContext, freshId]
  rw [h]
  rfl

/-- When all three searches throw and the supervisor response judges only
the (empty) candidate list it was shown, the pipeline yields no scored
competitors. -/
theorem runPipeline_nil (env : ProviderEnv) (ctx : BusinessContext)
    (hs : ∀ i q, env.searchOutcome i q = none)
    (hsup : supvJudgesGiven [] (env.supervisorOutcome ctx [])) :
    runPipeline env ctx = [] := by
  simp only [runPipeline]
  rw [hs 1 _, hs 2 _, hs 3 _]
  show (supervisorAgent (env.supervisorOutcome ctx
    (dedupByUrl (researchAgent none ++ researchAgent none ++ researchAgent none)))).map _ = []
  cases ho : env.supervisorOutcome ctx [] with
  | failure =>
    show (supervisorAgent (env.supervisorOutcome ctx [])).map _ = []
    rw [ho]
    rfl
  | parsed xs =>
    have hx : xs = [] := by
      rw [ho] at hsup
      cases xs with
      | nil => rfl
      | cons a as =>
        exact absurd (hsup a (List.mem_cons_self a as)) (by simp)
    show (supervisorAgent (env.supervisorOutcome ctx [])).map _ = []
    rw [ho, hx]
    rfl

/-- Claim C5: context-resolution failure ends the run in a thrown error with
the run's job FAILED (non-null error message) and no competitor rows
persisted; if the website exists, all three searches fail and the supervisor
judges only the candidates it was shown, the run returns an empty list with
the run's job COMPLETED and `competitors_found = 0`, and again no competitor
rows are written. -/
theorem C5_job_lifecycle (env : ProviderEnv) (db : DB) (wid : String) :
    (db.websites.find? (fun w => w.id = wid) = none →
      (discoverCompetitors env wid db).1 = .error "Website not found"
      ∧ (discoverCompetitors env wid db).2.competitors = db.competitors
      ∧ ∃ j ∈ (discoverCompetitors env wid db).2.jobs,
          j.id = db.nextId ∧ j.status = "failed"
          ∧ j.error_message = some "Website not found")
    ∧ (∀ w, db.websites.find? (fun x => x.id = wid) = some w →
      (∀ i q, env.searchOutcome i q = none) →
      (∀ ctx, supvJudgesGiven [] (env.supervisorOutcome ctx [])) →
      (discoverCompetitors env wid db).1 = .ok []
      ∧ (discoverCompetitors env wid db).2.competitors = db.competitors
      ∧ ∃ j ∈ (discoverCompetitors env wid db).2.jobs,
          j.id = db.nextId ∧ j.status = "completed"
          ∧ j.competitors_found = some 0) := by
  constructor
  · intro hnone
    rw [discoverCompetitors_not_found env db wid hnone]
    refine ⟨rfl, rfl, ?_⟩
    refine ⟨{ id := db.nextId, website_id := wid, status := "failed",
              error_message := some "Website not found",
              competitors_found := none }, ?_, rfl, rfl, rfl⟩
    show _ ∈ markJobsFailed (db.jobs ++ [pendingJob db.nextId wid]) wid _
    unfold markJobsFailed
    refine List.mem_map.mpr ⟨pendingJob db.nextId wid,
      List.mem_append_right _ (List.mem_singleton_self _), ?_⟩
    simp [pendingJob]
  · intro w hw hs hsup
    rw [discoverCompetitors_found env db wid w hw]
    rw [runPipeline_nil env _ hs (hsup _)]
    refine ⟨rfl, rfl, ?_⟩
    refine ⟨{ id := db.nextId, website_id := wid, status := "completed",
              error_message := none, competitors_found := some 0 }, ?_,
      rfl, rfl, rfl⟩
    show _ ∈ markJobCompleted (db.jobs ++ [pendingJob db.nextId wid]) db.nextId 0
    unfold markJobCompleted
    refine List.mem_map.mpr ⟨pendingJob db.nextId wid,
      List.mem_append_right _ (List.mem_singleton_self _), ?_⟩
    simp [pendingJob]

/-- Witness for `C5_job_lifecycle`: both branches at concrete stores. -/
theorem C5_job_lifecycle_witness :
    ((discoverCompetitors envNone "w1" dbPriorJob).1 = .error "Website not found"
      ∧ (discoverCompetitors envNone "w1" dbPriorJob).2.competitors = dbPriorJob.competitors
      ∧ ∃ j ∈ (discoverCompetitors envNone "w1" dbPriorJob).2.jobs,
          j.id = dbPriorJob.nextId ∧ j.status = "failed"
          ∧ j.error_message = some "Website not found")
    ∧ ((discoverCompetitors envNone "w1" dbOneSite).1 = .ok []
      ∧ (discoverCompetitors envNone "w1" dbOneSite).2.competitors = dbOneSite.competitors
      ∧ ∃ j ∈ (discoverCompetitors envNone "w1" dbOneSite).2.jobs,
          j.id = dbOneSite.nextId ∧ j.status = "completed"
          ∧ j.competitors_found = some 0) := by
  constructor
  · exact (C5_job_lifecycle envNone dbPriorJob "w1").1 (by decide)
  · exact (C5_job_lifecycle envNone dbOneSite "w1").2 wRow1 (by decide)
      (fun _ _ => rfl) (fun _ => trivial)

/-- The store loop with fresh ids only appends: every row of the resulting
`competitors` table is an original row or `mkCompetitorRow` of one of the
scored competitors, and all ids stay below the advanced counter. -/
theorem storeCompetitor_foldl_spec (wid : String) :
    ∀ (cs : List ScoredCompetitor) (db : DB),
      (∀ r ∈ db.competitors, r.id < db.nextId) →
      (∀ r ∈ (cs.foldl (storeCompetitor wid) db).competitors,
          r.id < (cs.foldl (storeCompetitor wid) db).nextId)
      ∧ (∀ r ∈ (cs.foldl (storeCompetitor wid) db).competitors,
          r ∈ db.competitors ∨ ∃ c ∈ cs, ∃ i, r = mkCompetitorRow i wid c) := by
  intro cs
  induction cs with
  | nil =>
    intro db h
    exact ⟨h, fun r hr => Or.inl hr⟩
  | cons c cs ih =>
    intro db h
    have hany : db.competitors.any (fun r => r.id = db.nextId) = false := by
      rw [List.any_eq_false]
      intro r hr
      simp only [decide_eq_true_eq]
      exact Nat.ne_of_lt (h r hr)
    have hstep : storeCompetitor wid db c =
        { db with nextId := db.nextId + 1,
                  competitors := db.competitors ++
                    [mkCompetitorRow db.nextId wid c] } := by
      simp only [storeCompetitor, freshId, upsertCompetitorRow,
        mkCompetitorRow]
      rw [hany]
      rfl
    have hinv : ∀ r ∈ (storeCompetitor wid db c).competitors,
        r.id < (storeCompetitor wid db c).nextId := by
      rw [hstep]
      intro r hr
      rcases List.mem_append.mp hr with hr1 | hr2
      · exact Nat.lt_succ_of_lt (h r hr1)
      · rw [List.mem_singleton.mp hr2]
        exact Nat.lt_succ_self _
    have hfold : (c :: cs).foldl (storeCompetitor wid) db =
        cs.foldl (storeCompetitor wid) (storeCompetitor wid db c) := rfl
    rw [hfold]
    obtain ⟨ih1, ih2⟩ := ih (storeCompetitor wid db c) hinv
    refine ⟨ih1, fun r hr => ?_⟩
    rcases ih2 r hr with hold | ⟨c2, hc2, i, hi⟩
    · rw [hstep] at hold
      rcases List.mem_append.mp hold with hr1 | hr2
      · exact Or.inl hr1
      · exact Or.inr ⟨c, List.mem_cons_self c cs, db.nextId,
          List.mem_singleton.mp hr2⟩
    · exact Or.inr ⟨c2, List.mem_cons_of_mem c hc2, i, hi⟩

/-- Claim C10: each competitor row written by a successful run stores
`threat_score` equal to the scorer's `total_threat_score` when that value is
a nonzero number, and 50 when it is 0, null or absent; and `confidence`
equal to the (possibly overridden) validated confidence when nonzero, and 80
otherwise. -/
theorem C10_falsy_persistence (env : ProviderEnv) (wid : String) (db : DB)
    (hfresh : ∀ r ∈ db.competitors, r.id < db.nextId)
    (out : List ScoredCompetitor)
    (hok : (discoverCompetitors env wid db).1 = .ok out) :
    ∀ r ∈ (discoverCompetitors env wid db).2.competitors,
      r ∉ db.competitors →
      ∃ c ∈ out,
        r.competitor_url = c.url
        ∧ r.threat_score = some (match c.total_threat_score with
            | some v => if v = 0 then (50 : Int) else v
            | none => 50)
        ∧ r.confidence = (match c.confidence with
            | some v => if v = 0 then (80 : Int) else v
            | none => 80) := by
  cases hf : db.websites.find? (fun x => x.id = wid) with
  | none =>
    rw [discoverCompetitors_not_found env db wid hf] at hok
    exact absurd hok (by simp)
  | some w =>
    rw [discoverCompetitors_found env db wid w hf] at hok
    have hout : runPipeline env (contextOfRow db w) = out := by
      simpa using hok
    rw [discoverCompetitors_found env db wid w hf]
    intro r hr hnotin
    have hspec := (storeCompetitor_foldl_spec wid
      (runPipeline env (contextOfRow db w))
      { db with nextId := db.nextId + 1,
                jobs := db.jobs ++ [pendingJob db.nextId wid] }
      (fun r2 h2 => Nat.lt_succ_of_lt (hfresh r2 h2))).2 r hr
    rcases hspec with hold | ⟨c, hc, i, hi⟩
    · exact absurd hold hnotin
    · refine ⟨c, by rw [← hout]; exact hc, ?_, ?_, ?_⟩
      · rw [hi]; rfl
      · rw [hi]
        show some (jsOrInt c.total_threat_score 50) = _
        cases c.total_threat_score with
        | none => rfl
        | some v => rfl
      · rw [hi]
        show jsOrInt c.confidence 80 = _
        cases c.confidence with
        | none => rfl
        | some v => rfl

/-- Witness for `C10_falsy_persistence`: a composite score of exactly 0 is
persisted as `threat_score` 50 (and a confidence of 0 as 80). -/
theorem C10_falsy_persistence_witness :
    ∃ c ∈ [scoredZero],
      (mkCompetitorRow 1 "w1" scoredZero).competitor_url = c.url
      ∧ (mkCompetitorRow 1 "w1" scoredZero).threat_score =
          some (match c.total_threat_score with
            | some v => if v = 0 then (50 : Int) else v
            | none => 50)
      ∧ (mkCompetitorRow 1 "w1" scoredZero).confidence =
          (match c.confidence with
            | some v => if v = 0 then (80 : Int) else v
            | none => 80) :=
  C10_falsy_persistence envZeroScore "w1" dbOneSite
    (by intro r hr; simp [dbOneSite] at hr) [scoredZero] rfl
    (mkCompetitorRow 1 "w1" scoredZero) (by decide) (by decide)

/-- Claim C1 is violated by the code: in a fixed world (`envOneRival`), one
discovery run for `w1` persists one row for the rival URL, and a second run
in the same world leaves two rows for the same (website, URL) key — the
`ON DUPLICATE KEY UPDATE` clause never fires because the `competitors` table
has no unique key on (website_id, competitor_url) and the inserted primary
key is a fresh UUID. -/
theorem C1_duplicate_rows :
    ((discoveryOnce.2).competitors.filter (fun r =>
      r.website_id = "w1"
        && r.competitor_url = "https://rival.example")).length = 1
    ∧ ((discoveryTwice.2).competitors.filter (fun r =>
      r.website_id = "w1"
        && r.competitor_url = "https://rival.example")).length = 2 := by
  constructor
  · decide
  · decide

/-- Claim C3 is violated by the code: a run that fails context resolution
updates jobs `WHERE website_id = ?`, so the pre-existing COMPLETED job (id
100) of the same website is rewritten to FAILED with the new error
message. -/
theorem C3_prior_job_overwritten :
    dbPriorJob.jobs.find? (fun j => j.id = 100) =
      some { id := 100, website_id := "w1", status := "completed",
             error_message := none, competitors_found := some 3 }
    ∧ (discoverCompetitors envNone "w1" dbPriorJob).2.jobs.find?
        (fun j => j.id = 100) =
      some { id := 100, website_id := "w1", status := "failed",
             error_message := some "Website not found",
             competitors_found := some 3 } := by
  constructor
  · decide
  · decide

/-- Claim C9: the weekly batch always completes the full iteration with
`success + error = number of websites`, and in the concrete 3-website
scenario where only the second website's refresh throws, the tallies are
(2, 1) and fresh ThreatAssessment rows exist exactly for the first and third
websites. -/
theorem C9_batch_isolation :
    (∀ (env : ProviderEnv) (wids : List String) (acc : WeeklyResult),
      (weeklyRefreshLoop env wids acc).success
        + (weeklyRefreshLoop env wids acc).error
        = acc.success + acc.error + wids.length)
    ∧ (∀ (env : ProviderEnv) (db : DB),
      (performWeeklyRefresh env db).success
        + (performWeeklyRefresh env db).error
        = (activeWebsiteIds db).length)
    ∧ weeklyScenario.success = 2
    ∧ weeklyScenario.error = 1
    ∧ (weeklyScenario.db.threat_assessments.filter
        (fun a => a.website_id = "w1")).length = 1
    ∧ (weeklyScenario.db.threat_assessments.filter
        (fun a => a.website_id = "w3")).length = 1
    ∧ (weeklyScenario.db.threat_assessments.filter
        (fun a => a.website_id = "w2")).length = 0 := by
  have main : ∀ (env : ProviderEnv) (wids : List String) (acc : WeeklyResult),
      (weeklyRefreshLoop env wids acc).success
        + (weeklyRefreshLoop env wids acc).error
        = acc.success + acc.error + wids.length := by
    intro env wids
    induction wids with
    | nil => intro acc; simp [weeklyRefreshLoop]
    | cons wid rest ih =>
      intro acc
      simp only [weeklyRefreshLoop]
      cases h : (weeklyStep env acc.db wid).1 with
      | true =>
        rw [if_pos rfl, ih]
        simp only [List.length_cons]
        omega
      | false =>
        rw [if_neg (by simp), ih]
        simp only [List.length_cons]
        omega
  refine ⟨main, fun env db => ?_, by decide, by decide, by decide, by decide,
    by decide⟩
  have := main env (activeWebsiteIds db)
    { success := 0, error := 0, db := db }
  simpa [performWeeklyRefresh] using this

end Beam
